import Mathlib

/-!
# Verification of the X-TIME hyperparameter-search driver and dataset contract

Shallow embedding of `src/training/xtime/stages/search_hp.py` and of the
dataset contract exercised by
`src/training/tests/datasets/test_gas_concentrations.py`.

Python dictionaries become association lists, exceptions become
`Except`/`Option`, and the side effects of `search_hp` (Ray runtime
init/shutdown, MLflow run lifecycle, dataset load, trial launch) become an
explicit ordered event trace so that ordering and bracketing properties can
be stated.
-/

namespace XTime

/-- Task types (`xtime.ml.TaskType`); the spec mentions multi-class
classification, we also keep the other standard variants. -/
inductive TaskType where
  | binaryClassification
  | multiClassClassification
  | regression
deriving DecidableEq, Repr

/-- Optimization direction: Ray Tune's `mode="min"` / `mode="max"` strings. -/
inductive Mode where
  | min
  | max
deriving DecidableEq, Repr

/-- Modelled from the spec: the fixed metric registry `xtime.ml.METRICS`
(not under `src/`). Per the spec it maps a task type to an ordered set of
metric names and to a primary metric with a minimize/maximize direction. -/
structure MetricRegistry where
  get_primary_metric : TaskType → String
  primary_metric_direction : TaskType → Mode
  metric_names : TaskType → List String

/-- Search algorithm values built by `_init_search_algorithm`:
`BasicVariantGenerator(random_state=...)`,
`HyperOptSearch(metric=..., mode=..., n_initial_points=..., random_state_seed=...)`
and `ConcurrencyLimiter(searcher, max_concurrent=...)`. -/
inductive SearchAlgorithm where
  | basicVariantGenerator (random_state : Nat)
  | hyperOptSearch (metric : String) (mode : Mode) (n_initial_points : Nat)
      (random_state_seed : Nat)
  | concurrencyLimiter (searcher : SearchAlgorithm) (max_concurrent : Nat)
deriving DecidableEq, Repr

/-- `ray.tune.TuneConfig`: the fields read or written by `search_hp.py`.
`search_alg` and `max_concurrent_trials` default to Python `None` at
construction, encoded as `Option`. -/
structure TuneConfig where
  metric : String
  mode : Mode
  num_samples : Nat
  search_alg : Option SearchAlgorithm
  max_concurrent_trials : Option Nat
deriving DecidableEq, Repr

/-- `_init_search_algorithm(tune_config, algorithm)`: mutates the config for
`"random"` and `"hyperopt"`, raises `ValueError` otherwise.  The raised
exception is `Except.error` carrying the message. -/
def _init_search_algorithm (tune_config : TuneConfig) (algorithm : String) :
    Except String TuneConfig :=
  if algorithm = "random" then
    .ok { tune_config with
      search_alg := some (.basicVariantGenerator 1),
      max_concurrent_trials := some 2 }
  else if algorithm = "hyperopt" then
    .ok { tune_config with
      search_alg := some (.concurrencyLimiter
        (.hyperOptSearch tune_config.metric tune_config.mode 20 1) 2),
      max_concurrent_trials := none }
  else
    .error ("Unsupported hyperparameter optimization algorithm: " ++ algorithm)

/-- One Ray Tune trial result (`ray.air.Result`): whether the trial errored,
its log directory, its hyperparameter config and its reported metrics.
Metric values are modelled as integers: only their order matters here. -/
structure Trial where
  failed : Bool
  log_dir : String
  config : List (String × String)
  metrics : List (String × Int)
deriving DecidableEq, Repr

/-- `ray.tune.ResultGrid`: the list of trial results returned by
`tuner.fit()`. -/
abbrev ResultGrid := List Trial

/-- `ResultGrid.num_errors`: the number of trials that errored. -/
def ResultGrid.num_errors (results : ResultGrid) : Nat :=
  (results.filter (·.failed)).length

/-- Metric lookup on a trial result (`result.metrics[name]`, fallible). -/
def Trial.metric_value (trial : Trial) (name : String) : Option Int :=
  trial.metrics.lookup name

/-- `ResultGrid.get_best_result(metric, mode)`: among trials that did not
error and that report the metric, the one with the smallest (mode `min`) or
largest (mode `max`) value; `none` when no trial qualifies (Ray raises). -/
def ResultGrid.get_best_result (results : ResultGrid) (metric : String)
    (mode : Mode) : Option Trial :=
  let candidates := results.filter
    (fun r => !r.failed && (r.metric_value metric).isSome)
  match mode with
  | .min => candidates.argmin (fun r => (r.metric_value metric).getD 0)
  | .max => candidates.argmax (fun r => (r.metric_value metric).getD 0)

/-- `_set_run_status(results)`: the status tag written on the MLflow run.
The Python sets a tag as its side effect; the model returns the tag value. -/
def _set_run_status (results : ResultGrid) : String :=
  let num_failed_trials : Nat := results.num_errors
  if num_failed_trials = 0 then "COMPLETED"
  else if num_failed_trials = results.length then "FAILED"
  else "PARTIALLY_COMPLETED"

/-- `_get_metrics(results, ctx)`: metrics of the best trial, one entry per
metric name registered for the task (`METRICS[task.type]`); fails when there
is no best trial (Ray raises) or a registered name is missing (KeyError). -/
def _get_metrics (results : ResultGrid) (registry : MetricRegistry)
    (task : TaskType) (metric : String) (mode : Mode) :
    Option (List (String × Int)) :=
  match results.get_best_result metric mode with
  | none => none
  | some best_result =>
    (registry.metric_names task).mapM
      (fun name => (best_result.metric_value name).map (fun v => (name, v)))

/-- `pathlib.Path.relative_to`: `relative_to p base` strips `base` from the
front of `p`; `none` models the `ValueError` when `p` is not under `base`.
Character-list operations keep the definition kernel-reducible. -/
def relative_to (path base : String) : Option String :=
  if path = base then some "."
  else if (base.data ++ [Char.ofNat 47]).isPrefixOf path.data then
    some ⟨path.data.drop (base.data.length + 1)⟩
  else none

/-- YAML scalar/mapping values appearing in `best_trial.yaml`. -/
inductive YamlValue where
  | str (s : String)
  | nat (n : Nat)
  | dictS (d : List (String × String))
  | dictI (d : List (String × Int))
deriving DecidableEq, Repr

/-- `_save_best_trial_info(results, local_dir, metrics, active_run)`: the
document written to `best_trial.yaml`, as an ordered key/value list.
`none` models the exceptions raised when there is no best trial or when its
log dir is not under `local_dir`. -/
def _save_best_trial_info (results : ResultGrid) (local_dir : String)
    (metrics : List (String × Int)) (run_id : String) (metric : String)
    (mode : Mode) : Option (List (String × YamlValue)) :=
  match results.get_best_result metric mode with
  | none => none
  | some best_result =>
    match relative_to best_result.log_dir local_dir with
    | none => none
    | some _relative_path =>
      some
        [("relative_path", .str _relative_path),
         ("local_path", .str best_result.log_dir),
         ("config", .dictS best_result.config),
         ("metrics", .dictI metrics),
         ("num_failed_trials", .nat results.num_errors),
         ("num_successful_trials", .nat (results.length - results.num_errors)),
         ("run_uri", .str ("mlflow:///" ++ run_id)),
         ("trial_uri", .str ("mlflow:///" ++ run_id ++ "/" ++ _relative_path))]

/-- Python `d[k] = v` on an association list with unique keys: replace the
binding of `k` when present, append it otherwise. -/
def dict_set : List (String × String) → String → String →
    List (String × String)
  | [], k, v => [(k, v)]
  | (k0, v0) :: rest, k, v =>
    if k0 = k then (k, v) :: rest else (k0, v0) :: dict_set rest k v

/-- Python `base.update(overrides)`: fold `dict_set` over the overriding
entries, so an overriding value wins on a key collision. -/
def dict_update (base overrides : List (String × String)) :
    List (String × String) :=
  overrides.foldl (fun acc kv => dict_set acc kv.1 kv.2) base

/-- `_set_tags(**tags)`: when the `MLFLOW_TAGS` environment variable holds a
value `v`, the tags from the parameter source `params:v` (resolved by
`xtime.hparams.get_hparams`, passed in as `get_hparams`) are merged into a
deep copy of the driver-supplied tags; otherwise the driver tags are used as
they are.  The result pairs the caller's dictionary after the call (left
unchanged thanks to `copy.deepcopy`) with the tag set handed to
`MLflow.set_tags`. -/
def _set_tags (tags : List (String × String)) (mlflow_tags_env : Option String)
    (get_hparams : String → List (String × String)) :
    List (String × String) × List (String × String) :=
  match mlflow_tags_env with
  | none => (tags, tags)
  | some v => (tags, dict_update tags (get_hparams ("params:" ++ v)))

/-- The `TuneConfig` literal built inside `search_hp`: the metric comes from
`METRICS.get_primary_metric(ctx.dataset.metadata.task)`, the mode is the
string literal `"min"`, `num_samples` is the requested trial count. -/
def search_hp_tune_config (registry : MetricRegistry) (task : TaskType)
    (num_trials : Nat) : TuneConfig :=
  { metric := registry.get_primary_metric task
    mode := .min
    num_samples := num_trials
    search_alg := none
    max_concurrent_trials := none }

/-- Observable actions of `search_hp`, in program order. -/
inductive Event where
  | rayInit
  | createExperiment
  | startRun (run_id : String)
  | saveRunInputs
  | datasetLoad
  | setTags
  | logParams
  | tunerFit
  | setRunStatus (status : String)
  | logMetrics
  | saveBestTrialInfo
  | saveSummary
  | endRun
  | rayShutdown
deriving DecidableEq, Repr

/-- Ambient data `search_hp` obtains from its collaborators: the MLflow run
id, the loaded dataset's task type, the metric registry, the result grid
`tuner.fit()` returns, and the run's artifact directory. -/
structure SearchEnv where
  run_id : String
  task : TaskType
  registry : MetricRegistry
  results : ResultGrid
  artifact_path : String

/-- `search_hp(dataset, model, algorithm, hparams, num_trials, gpu)` as a
trace semantics: the ordered list of observable events together with the
outcome (the returned `mlflow:///<run_id>` locator, or the propagated
exception).  `ray.shutdown()` sits after the `with mlflow.start_run(...)`
block and outside any `try`/`finally`, so an exception escaping the block
ends the run (`endRun`, done by the context manager) and propagates without
reaching `rayShutdown`. -/
def search_hp (env : SearchEnv) (dataset model algorithm : String)
    (num_trials : Nat) (gpu : Bool) : List Event × Except String String :=
  let pre : List Event :=
    [.rayInit, .createExperiment, .startRun env.run_id, .saveRunInputs,
     .datasetLoad, .setTags, .logParams]
  match _init_search_algorithm
      (search_hp_tune_config env.registry env.task num_trials) algorithm with
  | .error e => (pre ++ [.endRun], .error e)
  | .ok tune_config =>
    let results := env.results
    let status := _set_run_status results
    match _get_metrics results env.registry env.task tune_config.metric
        tune_config.mode with
    | none =>
      (pre ++ [.tunerFit, .setRunStatus status, .endRun],
       .error "No best trial found")
    | some metrics =>
      match _save_best_trial_info results env.artifact_path metrics env.run_id
          tune_config.metric tune_config.mode with
      | none =>
        (pre ++ [.tunerFit, .setRunStatus status, .logMetrics, .endRun],
         .error "best trial log dir is not relative to the artifact dir")
      | some _ =>
        (pre ++
          [.tunerFit, .setRunStatus status, .logMetrics, .saveBestTrialInfo,
           .saveSummary, .endRun, .rayShutdown],
         .ok ("mlflow:///" ++ env.run_id))

/-! ## Dataset contract check -/

/-- Dataset splits (`xtime.datasets.DatasetSplit`). -/
inductive DatasetSplit where
  | train
  | test
  | valid
deriving DecidableEq, Repr

/-- Dataset metadata: declared task type, feature count and class count. -/
structure DatasetMetadata where
  task : TaskType
  num_features : Nat
  num_classes : Nat
deriving DecidableEq, Repr

/-- A built dataset: the splits it actually contains plus its metadata. -/
structure Dataset where
  splits : List DatasetSplit
  metadata : DatasetMetadata
deriving DecidableEq, Repr

/-- The expected-shape parameters a dataset test declares (`_PARAMS` in
`TestGasConcentrations`). -/
structure DatasetContract where
  splits : List DatasetSplit
  task : TaskType
  num_features : Nat
  num_classes : Nat
deriving DecidableEq, Repr

/-- Modelled from the spec: the check `DatasetTestCase.standard` performs
(the class lives in `xtime.datasets`, outside `src/`): build the dataset for
the configuration, fail if any expected split is absent, fail if the
declared task type differs, fail if the feature count or the class count
differs. -/
def contract_check (expected : DatasetContract) (ds : Dataset) : Bool :=
  expected.splits.all (fun s => ds.splits.contains s) &&
  (ds.metadata.task == expected.task) &&
  (ds.metadata.num_features == expected.num_features) &&
  (ds.metadata.num_classes == expected.num_classes)

/-- `TestGasConcentrations._PARAMS`: splits {train, test, valid},
multi-class classification, 129 features, 6 classes. -/
def gas_concentrations_params : DatasetContract :=
  { splits := [.train, .test, .valid]
    task := .multiClassClassification
    num_features := 129
    num_classes := 6 }

/-- `TestGasConcentrations.DATASETS`: the same expected parameters for both
the "default" and the "numerical" configuration. -/
def gas_concentrations_datasets : List (String × DatasetContract) :=
  [("default", gas_concentrations_params),
   ("numerical", gas_concentrations_params)]

/-! ## Concrete fixtures used by witnesses and counterexamples -/

/-- A concrete metric registry fixture. -/
def registry0 : MetricRegistry :=
  { get_primary_metric := fun _ => "valid_loss"
    primary_metric_direction := fun _ => .min
    metric_names := fun _ => ["valid_loss"] }

/-- A registry whose primary-metric direction is `max` for every task:
exhibits that `search_hp` ignores the registry's direction. -/
def registry_max : MetricRegistry :=
  { get_primary_metric := fun _ => "accuracy"
    primary_metric_direction := fun _ => .max
    metric_names := fun _ => ["accuracy"] }

/-- A concrete successful trial fixture. -/
def trial0 : Trial :=
  { failed := false
    log_dir := "art/ray_tune/trial_00000"
    config := [("lr", "0.1")]
    metrics := [("valid_loss", 3)] }

/-- A concrete failed trial fixture. -/
def trial_failed : Trial :=
  { failed := true
    log_dir := "art/ray_tune/trial_00001"
    config := [("lr", "0.2")]
    metrics := [] }

/-- A concrete environment fixture under which `search_hp` succeeds. -/
def env0 : SearchEnv :=
  { run_id := "run0"
    task := .multiClassClassification
    registry := registry0
    results := [trial0]
    artifact_path := "art" }

/-- A concrete resolver fixture standing for `hp.get_hparams`. -/
def resolver0 : String → List (String × String) :=
  fun _ => [("framework", "env_override"), ("extra", "1")]

/-- A concrete dataset fixture satisfying the gas-concentrations contract. -/
def ds_good : Dataset :=
  { splits := [.train, .test, .valid]
    metadata :=
      { task := .multiClassClassification
        num_features := 129
        num_classes := 6 } }

/-! ## Theorems for the claims -/

/-- C1: for algorithm `"hyperopt"`, `_init_search_algorithm` succeeds and
configures a HyperOpt (Bayesian) search with 20 initial random points and
fixed seed 1, wrapped in a `ConcurrencyLimiter` capped at 2 concurrent
trials, and sets the scheduler-level `max_concurrent_trials` to `None`, so
the two concurrency mechanisms are not applied simultaneously.  This holds
for every input `TuneConfig`, in particular for the one `search_hp`
builds. -/
theorem hyperopt_branch_config (tune_config : TuneConfig) :
    ∃ cfg : TuneConfig,
      _init_search_algorithm tune_config "hyperopt" = .ok cfg ∧
      cfg.search_alg = some (.concurrencyLimiter
        (.hyperOptSearch tune_config.metric tune_config.mode 20 1) 2) ∧
      cfg.max_concurrent_trials = none :=
  ⟨_, rfl, rfl, rfl⟩

/-- C7: for algorithm `"random"`, `_init_search_algorithm` succeeds and
configures a `BasicVariantGenerator` random search with fixed seed 1 and a
scheduler-level concurrency cap `max_concurrent_trials = 2`. -/
theorem random_branch_config (tune_config : TuneConfig) :
    ∃ cfg : TuneConfig,
      _init_search_algorithm tune_config "random" = .ok cfg ∧
      cfg.search_alg = some (.basicVariantGenerator 1) ∧
      cfg.max_concurrent_trials = some 2 :=
  ⟨_, rfl, rfl, rfl⟩

/-- Witness for C1: the hyperopt branch evaluated at a concrete config. -/
theorem hyperopt_branch_config_witness :
    ∃ cfg : TuneConfig,
      _init_search_algorithm
        { metric := "valid_loss", mode := .min, num_samples := 3,
          search_alg := none, max_concurrent_trials := none } "hyperopt" =
        .ok cfg ∧
      cfg.search_alg = some (.concurrencyLimiter
        (.hyperOptSearch "valid_loss" .min 20 1) 2) ∧
      cfg.max_concurrent_trials = none :=
  hyperopt_branch_config
    { metric := "valid_loss", mode := .min, num_samples := 3,
      search_alg := none, max_concurrent_trials := none }

/-- Witness for C7: the random branch evaluated at a concrete config. -/
theorem random_branch_config_witness :
    ∃ cfg : TuneConfig,
      _init_search_algorithm
        { metric := "valid_loss", mode := .min, num_samples := 3,
          search_alg := none, max_concurrent_trials := none } "random" =
        .ok cfg ∧
      cfg.search_alg = some (.basicVariantGenerator 1) ∧
      cfg.max_concurrent_trials = some 2 :=
  random_branch_config
    { metric := "valid_loss", mode := .min, num_samples := 3,
      search_alg := none, max_concurrent_trials := none }

/-- C3: the run status tag is a function of the failure count: `COMPLETED`
when zero trials failed, `FAILED` when the (nonempty) grid has as many
failures as trials, and `PARTIALLY_COMPLETED` for any non-zero but partial
failure count. -/
theorem run_status_cases (results : ResultGrid) :
    (results.num_errors = 0 → _set_run_status results = "COMPLETED") ∧
    (0 < results.length → results.num_errors = results.length →
      _set_run_status results = "FAILED") ∧
    (0 < results.num_errors → results.num_errors < results.length →
      _set_run_status results = "PARTIALLY_COMPLETED") := by
  refine ⟨fun h => by simp [_set_run_status, h], fun hl he => ?_, fun h1 h2 => ?_⟩
  · have h0 : ¬ results.num_errors = 0 := by omega
    simp [_set_run_status, h0, he]
    exact List.length_pos.mp hl
  · have h0 : ¬ results.num_errors = 0 := by omega
    have hne : ¬ results.num_errors = results.length := by omega
    simp [_set_run_status, h0, hne]

/-- Witness for C3: the three status branches at concrete result grids. -/
theorem run_status_cases_witness :
    _set_run_status [trial0] = "COMPLETED" ∧
    _set_run_status [trial_failed] = "FAILED" ∧
    _set_run_status [trial0, trial_failed] = "PARTIALLY_COMPLETED" :=
  ⟨(run_status_cases [trial0]).1 (by decide),
   (run_status_cases [trial_failed]).2.1 (by decide) (by decide),
   (run_status_cases [trial0, trial_failed]).2.2 (by decide) (by decide)⟩

/-- C9: on an empty result grid the failure count equals the trial count
(both zero), yet the status tag is `COMPLETED`, not `FAILED`: the
zero-failures branch takes precedence over the all-failed branch. -/
theorem empty_grid_status_completed :
    ResultGrid.num_errors [] = List.length ([] : ResultGrid) ∧
    _set_run_status [] = "COMPLETED" ∧
    _set_run_status [] ≠ "FAILED" := by
  refine ⟨rfl, rfl, by decide⟩

/-- C2 counterexample: calling `search_hp` with the unsupported algorithm
`"foo"` does raise the descriptive error, but only after the distributed
runtime was initialized, the tracking run opened and the dataset loaded:
those events are already in the trace when the error propagates, so the
error is not raised before resource allocation. -/
theorem unknown_algorithm_not_before_resources :
    (search_hp env0 "gas_concentrations" "xgboost" "foo" 10 false).2 =
      .error "Unsupported hyperparameter optimization algorithm: foo" ∧
    Event.rayInit ∈
      (search_hp env0 "gas_concentrations" "xgboost" "foo" 10 false).1 ∧
    Event.startRun "run0" ∈
      (search_hp env0 "gas_concentrations" "xgboost" "foo" 10 false).1 ∧
    Event.datasetLoad ∈
      (search_hp env0 "gas_concentrations" "xgboost" "foo" 10 false).1 :=
  ⟨rfl, by decide, by decide, by decide⟩

/-- C2 (amended): for every algorithm name outside {"random", "hyperopt"},
`search_hp` raises the descriptive `ValueError` and no trial is ever
launched; however the error comes after the distributed runtime init, the
tracking-run creation and the dataset load, which are all in the trace. -/
theorem unknown_algorithm_fails_before_trials (env : SearchEnv)
    (dataset model algorithm : String) (num_trials : Nat) (gpu : Bool)
    (h1 : algorithm ≠ "random") (h2 : algorithm ≠ "hyperopt") :
    (search_hp env dataset model algorithm num_trials gpu).2 =
      .error ("Unsupported hyperparameter optimization algorithm: " ++
        algorithm) ∧
    Event.tunerFit ∉ (search_hp env dataset model algorithm num_trials gpu).1 ∧
    Event.rayInit ∈ (search_hp env dataset model algorithm num_trials gpu).1 ∧
    Event.startRun env.run_id ∈
      (search_hp env dataset model algorithm num_trials gpu).1 ∧
    Event.datasetLoad ∈
      (search_hp env dataset model algorithm num_trials gpu).1 := by
  simp [search_hp, _init_search_algorithm, h1, h2]

/-- Witness for C2: the amended theorem applied at the concrete algorithm
name `"baz"`. -/
theorem unknown_algorithm_fails_before_trials_witness :
    (search_hp env0 "d" "m" "baz" 4 false).2 =
      .error ("Unsupported hyperparameter optimization algorithm: " ++
        "baz") ∧
    Event.tunerFit ∉ (search_hp env0 "d" "m" "baz" 4 false).1 ∧
    Event.rayInit ∈ (search_hp env0 "d" "m" "baz" 4 false).1 ∧
    Event.startRun env0.run_id ∈ (search_hp env0 "d" "m" "baz" 4 false).1 ∧
    Event.datasetLoad ∈ (search_hp env0 "d" "m" "baz" 4 false).1 :=
  unknown_algorithm_fails_before_trials env0 "d" "m" "baz" 4 false
    (by decide) (by decide)

/-- C4 counterexample: on the error exit taken for the unsupported
algorithm `"bar"`, the runtime was initialized (`rayInit` is traced) but
`rayShutdown` never happens: the shutdown is not guaranteed on all exit
paths. -/
theorem runtime_shutdown_missing_on_error :
    Event.rayInit ∈ (search_hp env0 "d" "m" "bar" 3 false).1 ∧
    Event.rayShutdown ∉ (search_hp env0 "d" "m" "bar" 3 false).1 ∧
    (search_hp env0 "d" "m" "bar" 3 false).2 =
      .error "Unsupported hyperparameter optimization algorithm: bar" :=
  ⟨by decide, by decide, rfl⟩

/-- C4 (amended): the distributed runtime is initialized first and, on the
normal-completion path, shut down last, bracketing the whole search; but on
every error exit `rayShutdown` is skipped (only the tracking run is closed
by its context manager, `endRun`). -/
theorem runtime_bracketing (env : SearchEnv) (dataset model algorithm : String)
    (num_trials : Nat) (gpu : Bool) :
    (search_hp env dataset model algorithm num_trials gpu).1.head? =
      some .rayInit ∧
    (∀ s, (search_hp env dataset model algorithm num_trials gpu).2 = .ok s →
      (search_hp env dataset model algorithm num_trials gpu).1.getLast? =
        some .rayShutdown) ∧
    (∀ e, (search_hp env dataset model algorithm num_trials gpu).2 =
        .error e →
      Event.rayShutdown ∉
        (search_hp env dataset model algorithm num_trials gpu).1 ∧
      Event.endRun ∈
        (search_hp env dataset model algorithm num_trials gpu).1) := by
  simp only [search_hp]
  split
  · simp
  · split
    · simp
    · split
      · simp
      · simp

/-- Witness for C4: the amended theorem applied on a successful run
(algorithm `"hyperopt"` under `env0`) and on an error run (algorithm
`"nope"`). -/
theorem runtime_bracketing_witness :
    (search_hp env0 "d" "m" "hyperopt" 4 false).1.getLast? =
      some .rayShutdown ∧
    Event.rayShutdown ∉ (search_hp env0 "d" "m" "nope" 4 false).1 ∧
    Event.endRun ∈ (search_hp env0 "d" "m" "nope" 4 false).1 :=
  ⟨(runtime_bracketing env0 "d" "m" "hyperopt" 4 false).2.1
      ("mlflow:///" ++ "run0") rfl,
   ((runtime_bracketing env0 "d" "m" "nope" 4 false).2.2
      ("Unsupported hyperparameter optimization algorithm: " ++ "nope")
      rfl).1,
   ((runtime_bracketing env0 "d" "m" "nope" 4 false).2.2
      ("Unsupported hyperparameter optimization algorithm: " ++ "nope")
      rfl).2⟩

/-- C5 counterexample: the minimize/maximize direction used to rank trials
is not derived from the registry: for a registry whose primary-metric
direction is `max`, `search_hp` still builds the tune config with mode
`min` (the string literal `"min"` in the source). -/
theorem mode_not_derived_from_registry :
    (search_hp_tune_config registry_max .multiClassClassification 5).mode ≠
      registry_max.primary_metric_direction .multiClassClassification := by
  decide

/-- C5 (amended): the primary metric is derived from the dataset's task
type via the metric registry, the direction is hard-coded to minimize
(independent of the registry's direction), and the best result is selected
by minimizing that primary metric: any best trial's value is at most the
value of every non-failed trial reporting the metric. -/
theorem primary_metric_selection (registry : MetricRegistry) (task : TaskType)
    (num_trials : Nat) :
    (search_hp_tune_config registry task num_trials).metric =
      registry.get_primary_metric task ∧
    (search_hp_tune_config registry task num_trials).mode = .min ∧
    (∀ (results : ResultGrid) (best : Trial),
      results.get_best_result (registry.get_primary_metric task) .min =
        some best →
      ∀ r ∈ results, r.failed = false →
        (r.metric_value (registry.get_primary_metric task)).isSome = true →
        (best.metric_value (registry.get_primary_metric task)).getD 0 ≤
          (r.metric_value (registry.get_primary_metric task)).getD 0) := by
  refine ⟨rfl, rfl, fun results best hbest r hr hfail hsome => ?_⟩
  have hmem : r ∈ results.filter
      (fun t => !t.failed && (t.metric_value
        (registry.get_primary_metric task)).isSome) := by
    rw [List.mem_filter]
    exact ⟨hr, by simp [hfail, hsome]⟩
  have hargmin : best ∈ List.argmin
      (fun t => (t.metric_value (registry.get_primary_metric task)).getD 0)
      (results.filter (fun t => !t.failed && (t.metric_value
        (registry.get_primary_metric task)).isSome)) := by
    simpa [ResultGrid.get_best_result] using hbest
  exact List.le_of_mem_argmin hmem hargmin

/-- Witness for C5: the amended theorem at the concrete registry
`registry0`, the one-trial grid `[trial0]` and its best trial `trial0`. -/
theorem primary_metric_selection_witness :
    (search_hp_tune_config registry0 .multiClassClassification 5).metric =
      registry0.get_primary_metric .multiClassClassification ∧
    (search_hp_tune_config registry0 .multiClassClassification 5).mode =
      .min ∧
    (trial0.metric_value
        (registry0.get_primary_metric .multiClassClassification)).getD 0 ≤
      (trial0.metric_value
        (registry0.get_primary_metric .multiClassClassification)).getD 0 :=
  ⟨(primary_metric_selection registry0 .multiClassClassification 5).1,
   (primary_metric_selection registry0 .multiClassClassification 5).2.1,
   (primary_metric_selection registry0 .multiClassClassification 5).2.2
     [trial0] trial0 (by decide) trial0 (by decide) (by decide) (by decide)⟩

/-- C6: for each configuration in `TestGasConcentrations.DATASETS`
("default" and "numerical", both with `_PARAMS`), the contract check passes
exactly when the splits train, test and valid are all present, the task is
multi-class classification, the feature count is 129 and the class count is
6; it fails whenever any of these differs. -/
theorem gas_concentrations_contract (config : String)
    (contract : DatasetContract)
    (hmem : (config, contract) ∈ gas_concentrations_datasets) (ds : Dataset) :
    contract_check contract ds = true ↔
      (DatasetSplit.train ∈ ds.splits ∧ DatasetSplit.test ∈ ds.splits ∧
       DatasetSplit.valid ∈ ds.splits ∧
       ds.metadata.task = .multiClassClassification ∧
       ds.metadata.num_features = 129 ∧ ds.metadata.num_classes = 6) := by
  have hc : contract = gas_concentrations_params := by
    simp only [gas_concentrations_datasets, List.mem_cons,
      List.mem_singleton, Prod.mk.injEq, List.not_mem_nil, or_false] at hmem
    rcases hmem with ⟨_, h⟩ | ⟨_, h⟩ <;> exact h
  subst hc
  simp [contract_check, gas_concentrations_params, List.all_cons,
    Bool.and_eq_true, and_assoc, List.contains]

/-- Witness for C6: the contract theorem at the "default" configuration and
a concrete dataset that satisfies all expectations. -/
theorem gas_concentrations_contract_witness :
    contract_check gas_concentrations_params ds_good = true ↔
      (DatasetSplit.train ∈ ds_good.splits ∧ DatasetSplit.test ∈ ds_good.splits ∧
       DatasetSplit.valid ∈ ds_good.splits ∧
       ds_good.metadata.task = .multiClassClassification ∧
       ds_good.metadata.num_features = 129 ∧
       ds_good.metadata.num_classes = 6) :=
  gas_concentrations_contract "default" gas_concentrations_params
    (by decide) ds_good

/-- C8: whenever a best trial exists and its log dir lies under the run's
artifact dir, `_save_best_trial_info` persists a document with exactly the
keys relative_path, local_path, config, metrics, num_failed_trials,
num_successful_trials, run_uri and trial_uri, in which
`run_uri = mlflow:///<run_id>`,
`trial_uri = mlflow:///<run_id>/<relative_trial_path>` and
`num_successful_trials` is the trial count minus the failure count. -/
theorem best_trial_doc_shape (results : ResultGrid) (local_dir : String)
    (metrics : List (String × Int)) (run_id : String) (metric : String)
    (mode : Mode) (best : Trial) (rel : String)
    (hbest : results.get_best_result metric mode = some best)
    (hrel : relative_to best.log_dir local_dir = some rel) :
    ∃ doc, _save_best_trial_info results local_dir metrics run_id metric
        mode = some doc ∧
      doc.map Prod.fst =
        ["relative_path", "local_path", "config", "metrics",
         "num_failed_trials", "num_successful_trials", "run_uri",
         "trial_uri"] ∧
      doc.lookup "run_uri" = some (.str ("mlflow:///" ++ run_id)) ∧
      doc.lookup "trial_uri" =
        some (.str ("mlflow:///" ++ run_id ++ "/" ++ rel)) ∧
      doc.lookup "num_successful_trials" =
        some (.nat (results.length - results.num_errors)) := by
  unfold _save_best_trial_info
  rw [hbest]
  simp only [hrel]
  exact ⟨_, rfl, rfl, rfl, rfl, rfl⟩

/-- Witness for C8: the document shape theorem at the one-trial grid
`[trial0]`, artifact dir `"art"` and run id `"run0"`. -/
theorem best_trial_doc_shape_witness :
    ∃ doc, _save_best_trial_info [trial0] "art" [("valid_loss", 3)] "run0"
        "valid_loss" .min = some doc ∧
      doc.map Prod.fst =
        ["relative_path", "local_path", "config", "metrics",
         "num_failed_trials", "num_successful_trials", "run_uri",
         "trial_uri"] ∧
      doc.lookup "run_uri" = some (.str ("mlflow:///" ++ "run0")) ∧
      doc.lookup "trial_uri" =
        some (.str ("mlflow:///" ++ "run0" ++ "/" ++
          "ray_tune/trial_00000")) ∧
      doc.lookup "num_successful_trials" =
        some (.nat (List.length [trial0] -
          ResultGrid.num_errors [trial0])) :=
  best_trial_doc_shape [trial0] "art" [("valid_loss", 3)] "run0" "valid_loss"
    .min trial0 "ray_tune/trial_00000" (by decide) (by decide)

/-- Setting a key makes it look up to the new value. -/
theorem dict_set_lookup_self (base : List (String × String)) (k v : String) :
    (dict_set base k v).lookup k = some v := by
  induction base with
  | nil => simp [dict_set, List.lookup]
  | cons kv rest ih =>
    obtain ⟨k0, v0⟩ := kv
    by_cases h : k0 = k
    · simp [dict_set, h, List.lookup]
    · have h2 : (k == k0) = false := beq_eq_false_iff_ne.mpr (Ne.symm h)
      simp [dict_set, h, List.lookup, h2, ih]

/-- Setting a key leaves every other key's lookup unchanged. -/
theorem dict_set_lookup_ne (base : List (String × String)) (k v k0 : String)
    (h : k0 ≠ k) : (dict_set base k v).lookup k0 = base.lookup k0 := by
  induction base with
  | nil =>
    have h2 : (k0 == k) = false := beq_eq_false_iff_ne.mpr h
    simp [dict_set, List.lookup, h2]
  | cons kv rest ih =>
    obtain ⟨k1, v1⟩ := kv
    by_cases h1 : k1 = k
    · subst h1
      have h2 : (k0 == k1) = false := beq_eq_false_iff_ne.mpr h
      simp [dict_set, List.lookup, h2]
    · simp [dict_set, h1, List.lookup, ih]

/-- A key absent from the key list looks up to `none`. -/
theorem lookup_eq_none_of_not_mem_keys (l : List (String × String))
    (k : String) (h : k ∉ l.map Prod.fst) : l.lookup k = none := by
  induction l with
  | nil => simp [List.lookup]
  | cons kv rest ih =>
    obtain ⟨k0, v0⟩ := kv
    simp only [List.map_cons, List.mem_cons, not_or] at h
    have h2 : (k == k0) = false := beq_eq_false_iff_ne.mpr h.1
    simp [List.lookup, h2, ih h.2]

/-- Python `dict.update` merge law: when the overriding entries have unique
keys, a lookup in the merged dictionary returns the overriding value when
the key collides and the base value otherwise. -/
theorem dict_update_lookup (overrides : List (String × String)) :
    ∀ base : List (String × String), (overrides.map Prod.fst).Nodup →
      ∀ k, (dict_update base overrides).lookup k =
        (overrides.lookup k).or (base.lookup k) := by
  induction overrides with
  | nil => intro base _ k; simp [dict_update, List.lookup]
  | cons kv rest ih =>
    intro base hnd k
    obtain ⟨k0, v0⟩ := kv
    simp only [List.map_cons, List.nodup_cons] at hnd
    have step : dict_update base ((k0, v0) :: rest) =
        dict_update (dict_set base k0 v0) rest := rfl
    rw [step, ih (dict_set base k0 v0) hnd.2 k]
    by_cases h : k = k0
    · subst h
      rw [lookup_eq_none_of_not_mem_keys rest k hnd.1,
        dict_set_lookup_self]
      simp [List.lookup]
    · rw [dict_set_lookup_ne base k0 v0 k h]
      have h2 : (k == k0) = false := beq_eq_false_iff_ne.mpr h
      simp [List.lookup, h2]

/-- C10: `_set_tags` leaves the caller's tag mapping unchanged (the deep
copy); when `MLFLOW_TAGS` is unset exactly the driver-supplied tags are
set; when it is set, the environment-sourced tags are merged in and on a
key collision the environment-sourced value overrides the driver-supplied
one, while non-colliding driver tags are preserved. -/
theorem set_tags_merge (tags : List (String × String))
    (mlflow_tags_env : Option String)
    (get_hparams : String → List (String × String)) :
    (_set_tags tags mlflow_tags_env get_hparams).1 = tags ∧
    (mlflow_tags_env = none →
      (_set_tags tags mlflow_tags_env get_hparams).2 = tags) ∧
    (∀ v, mlflow_tags_env = some v →
      ((get_hparams ("params:" ++ v)).map Prod.fst).Nodup →
      ∀ k, (_set_tags tags mlflow_tags_env get_hparams).2.lookup k =
        ((get_hparams ("params:" ++ v)).lookup k).or (tags.lookup k)) := by
  refine ⟨?_, ?_, ?_⟩
  · cases mlflow_tags_env <;> rfl
  · intro h; subst h; rfl
  · intro v hv hnd k
    subst hv
    exact dict_update_lookup (get_hparams ("params:" ++ v)) tags hnd k

/-- Witness for C10: `_set_tags` at concrete driver tags, a set
`MLFLOW_TAGS` value and the concrete resolver `resolver0`; the colliding
key "framework" takes the environment value, the caller's mapping is
untouched. -/
theorem set_tags_merge_witness :
    (_set_tags [("framework", "tune")] (some "mytags") resolver0).1 =
      [("framework", "tune")] ∧
    (_set_tags [("framework", "tune")] (some "mytags") resolver0).2.lookup
        "framework" =
      ((resolver0 ("params:" ++ "mytags")).lookup "framework").or
        ([("framework", "tune")].lookup "framework") :=
  ⟨(set_tags_merge [("framework", "tune")] (some "mytags") resolver0).1,
   (set_tags_merge [("framework", "tune")] (some "mytags") resolver0).2.2
     "mytags" rfl (by decide) "framework"⟩

end XTime
